import Mathlib

/-!
Shallow embedding of the loyalty-program NL-to-SQL backend
(Express routes, QueryService, OpenAI wrapper, LangChain LoyaltyAgent,
YAML schema loader) and proofs about its fallback/mock behaviour.

JavaScript strings are modelled as Lean `String`; the string predicates
used by the code (`includes`, `startsWith`, `endsWith`, `trim`,
`toLowerCase`) are re-implemented on the underlying character lists so
that every definition evaluates inside the kernel.  JavaScript numbers
that appear in the data are integers except for a few decimal literals
with one fractional digit; those positions are modelled in tenths
(an `Int` counting multiples of 0.1).
-/

/-- ASCII whitespace recognised by JavaScript `String.prototype.trim`
(the source only ever trims ASCII text). -/
def isJsSpace (c : Char) : Bool := c == ' ' || c == '\t' || c == '\n' || c == '\r'

/-- Prefix test: `startsWithChars s p` is true when `p` is a prefix of `s` (character lists). -/
def startsWithChars : List Char → List Char → Bool
  | _, [] => true
  | [], _ :: _ => false
  | a :: as, b :: bs => a == b && startsWithChars as bs

/-- Substring test: `charsContain s sub` is true when `sub` occurs contiguously inside `s`. -/
def charsContain (s sub : List Char) : Bool :=
  startsWithChars s sub ||
    match s with
    | [] => false
    | _ :: t => charsContain t sub

/-- JavaScript `String.prototype.toLowerCase` (ASCII behaviour). -/
def jsToLower (s : String) : String := String.mk (s.data.map Char.toLower)

/-- JavaScript `String.prototype.includes`. -/
def jsIncludes (s sub : String) : Bool := charsContain s.data sub.data

/-- JavaScript `String.prototype.startsWith`. -/
def jsStartsWith (s sub : String) : Bool := startsWithChars s.data sub.data

/-- JavaScript `String.prototype.endsWith`. -/
def jsEndsWith (s sub : String) : Bool := startsWithChars s.data.reverse sub.data.reverse

/-- JavaScript `String.prototype.trim`. -/
def jsTrim (s : String) : String :=
  String.mk (((s.data.dropWhile isJsSpace).reverse.dropWhile isJsSpace).reverse)

/-- JavaScript `v || dflt` for a possibly-absent string `v`
(absent and empty strings are falsy). -/
def jsOrStr (v : Option String) (dflt : String) : String :=
  match v with
  | some s => if s == "" then dflt else s
  | none => dflt

/-- JavaScript truthiness of a possibly-absent string. -/
def jsTruthyStr (v : Option String) : Bool :=
  match v with
  | some s => s != ""
  | none => false

/-- A JSON-like value as stored in the mock row objects.  `jtenths t`
stands for the decimal number `t / 10` (used for the one-fractional-digit
literals such as `45.2` and `0.1`). -/
inductive JVal where
  | jstr (s : String)
  | jnum (n : Int)
  | jtenths (t : Int)
  | jbool (b : Bool)
  | jnull
deriving DecidableEq, Repr

/-- A JavaScript row object: field names paired with values. -/
abbrev Row := List (String × JVal)

/-- Outcome of an awaited `axios` call: the promise resolves with a value
or rejects. -/
inductive ApiCallResult (α : Type) where
  | success (v : α)
  | failure
deriving DecidableEq, Repr

/-- Column entry of the database schema exposed to the LLM prompt. -/
structure TableColumn where
  name : String
  type : String
  description : String
deriving DecidableEq, Repr

/-- Table entry of the database schema. -/
structure Table where
  name : String
  description : String
  columns : List TableColumn
deriving DecidableEq, Repr

/-- The schema object `{ tables: [...] }`. -/
structure DatabaseSchema where
  tables : List Table
deriving DecidableEq, Repr

namespace QueryService

/-- Embeds `QueryService.getMockTopPointsEarners` from `queryService.ts`. -/
def getMockTopPointsEarners : List Row :=
  [ [("id", JVal.jnum 1), ("firstName", JVal.jstr "Michael"), ("lastName", JVal.jstr "Scott"),
     ("email", JVal.jstr "mscott@example.com"), ("points", JVal.jnum 3542)],
    [("id", JVal.jnum 2), ("firstName", JVal.jstr "Jim"), ("lastName", JVal.jstr "Halpert"),
     ("email", JVal.jstr "jhalpert@example.com"), ("points", JVal.jnum 2891)],
    [("id", JVal.jnum 3), ("firstName", JVal.jstr "Pam"), ("lastName", JVal.jstr "Beesly"),
     ("email", JVal.jstr "pbeesly@example.com"), ("points", JVal.jnum 2745)],
    [("id", JVal.jnum 4), ("firstName", JVal.jstr "Dwight"), ("lastName", JVal.jstr "Schrute"),
     ("email", JVal.jstr "dschrute@example.com"), ("points", JVal.jnum 2103)],
    [("id", JVal.jnum 5), ("firstName", JVal.jstr "Kelly"), ("lastName", JVal.jstr "Kapoor"),
     ("email", JVal.jstr "kkapoor@example.com"), ("points", JVal.jnum 1986)] ]

/-- Embeds `QueryService.getMockExpiringPoints` from `queryService.ts`. -/
def getMockExpiringPoints : List Row :=
  [ [("id", JVal.jnum 6), ("firstName", JVal.jstr "Andy"), ("lastName", JVal.jstr "Bernard"),
     ("email", JVal.jstr "abernard@example.com"), ("points", JVal.jnum 1275),
     ("expiryDate", JVal.jstr "2023-07-15")],
    [("id", JVal.jnum 7), ("firstName", JVal.jstr "Stanley"), ("lastName", JVal.jstr "Hudson"),
     ("email", JVal.jstr "shudson@example.com"), ("points", JVal.jnum 950),
     ("expiryDate", JVal.jstr "2023-07-18")],
    [("id", JVal.jnum 8), ("firstName", JVal.jstr "Phyllis"), ("lastName", JVal.jstr "Vance"),
     ("email", JVal.jstr "pvance@example.com"), ("points", JVal.jnum 875),
     ("expiryDate", JVal.jstr "2023-07-22")],
    [("id", JVal.jnum 9), ("firstName", JVal.jstr "Kevin"), ("lastName", JVal.jstr "Malone"),
     ("email", JVal.jstr "kmalone@example.com"), ("points", JVal.jnum 650),
     ("expiryDate", JVal.jstr "2023-07-25")],
    [("id", JVal.jnum 10), ("firstName", JVal.jstr "Oscar"), ("lastName", JVal.jstr "Martinez"),
     ("email", JVal.jstr "omartinez@example.com"), ("points", JVal.jnum 590),
     ("expiryDate", JVal.jstr "2023-07-28")] ]

/-- Embeds `QueryService.getMockChallengeCompletions` from `queryService.ts`. -/
def getMockChallengeCompletions : List Row :=
  [ [("id", JVal.jnum 1), ("name", JVal.jstr "Summer Bonus"), ("completions", JVal.jnum 542),
     ("totalParticipants", JVal.jnum 1200), ("completionRate", JVal.jtenths 452)],
    [("id", JVal.jnum 2), ("name", JVal.jstr "Referral Drive"), ("completions", JVal.jnum 321),
     ("totalParticipants", JVal.jnum 800), ("completionRate", JVal.jtenths 401)],
    [("id", JVal.jnum 3), ("name", JVal.jstr "Social Media"), ("completions", JVal.jnum 268),
     ("totalParticipants", JVal.jnum 600), ("completionRate", JVal.jtenths 447)],
    [("id", JVal.jnum 4), ("name", JVal.jstr "First Purchase"), ("completions", JVal.jnum 189),
     ("totalParticipants", JVal.jnum 250), ("completionRate", JVal.jtenths 756)],
    [("id", JVal.jnum 5), ("name", JVal.jstr "Loyalty Anniversary"), ("completions", JVal.jnum 143),
     ("totalParticipants", JVal.jnum 200), ("completionRate", JVal.jtenths 715)] ]

/-- Embeds `QueryService.executeQuery` from `queryService.ts`: on a successful
API call the response data is returned; on failure the mock dataset is
chosen by keyword matching on the lowercased SQL text. -/
def executeQuery (apiOutcome : ApiCallResult (List Row)) (sqlQuery : String) : List Row :=
  match apiOutcome with
  | .success rows => rows
  | .failure =>
    let lowerQuery := jsToLower sqlQuery
    if jsIncludes lowerQuery "top" && jsIncludes lowerQuery "points" then
      getMockTopPointsEarners
    else if jsIncludes lowerQuery "expiring" then
      getMockExpiringPoints
    else if jsIncludes lowerQuery "challenge" && jsIncludes lowerQuery "completion" then
      getMockChallengeCompletions
    else
      getMockTopPointsEarners

end QueryService

/-- The object returned by SQL generation: `{ query, understanding }`. -/
structure SQLGenerationResponse where
  query : String
  understanding : String
deriving DecidableEq, Repr

/-- An insight entry `{ id, text }`. -/
structure Insight where
  id : Int
  text : String
deriving DecidableEq, Repr

/-- A recommendation entry `{ id, title, description, type }`. -/
structure Recommendation where
  id : Int
  title : String
  description : String
  type : String
deriving DecidableEq, Repr

/-- The object returned by result analysis: `{ title, insights, recommendations }`. -/
structure AnalysisResponse where
  title : String
  insights : List Insight
  recommendations : List Recommendation
deriving DecidableEq, Repr

/-- The canned top-points SQL response of `generateMockSQLResponse`. -/
def mockSQLTopPoints : SQLGenerationResponse :=
  { query := "SELECT c.id, c.first_name AS firstName, c.last_name AS lastName, c.email, \n              SUM(pt.points) AS points \n              FROM customers c\n              JOIN points_transactions pt ON c.id = pt.customer_id\n              WHERE pt.type = \x27earn\x27\n              GROUP BY c.id, c.first_name, c.last_name, c.email\n              ORDER BY points DESC\n              LIMIT 5",
    understanding := "You want to see which customers have earned the most points in total." }

/-- The canned expiring-points SQL response of `generateMockSQLResponse`. -/
def mockSQLExpiring : SQLGenerationResponse :=
  { query := "SELECT c.id, c.first_name AS firstName, c.last_name AS lastName, c.email,\n              SUM(pt.points) AS points,\n              DATEADD(month, 1, CURRENT_DATE) AS expiryDate\n              FROM customers c\n              JOIN points_transactions pt ON c.id = pt.customer_id\n              WHERE pt.type = \x27earn\x27 AND pt.created_at < DATEADD(month, -11, CURRENT_DATE)\n              GROUP BY c.id, c.first_name, c.last_name, c.email\n              ORDER BY expiryDate ASC\n              LIMIT 5",
    understanding := "You\x27re looking for customers with points that are going to expire soon." }

/-- The canned challenge-completion SQL response of `generateMockSQLResponse`. -/
def mockSQLChallengeCompletion : SQLGenerationResponse :=
  { query := "SELECT ch.id, ch.name, \n              COUNT(cc.id) AS completions,\n              (SELECT COUNT(DISTINCT customer_id) FROM challenge_completions) AS totalParticipants,\n              (COUNT(cc.id) * 100.0 / (SELECT COUNT(DISTINCT customer_id) FROM challenge_completions)) AS completionRate\n              FROM challenges ch\n              LEFT JOIN challenge_completions cc ON ch.id = cc.challenge_id\n              GROUP BY ch.id, ch.name\n              ORDER BY completions DESC\n              LIMIT 5",
    understanding := "You want to see the completion rates for different loyalty program challenges." }

/-- The canned default SQL response of `generateMockSQLResponse`. -/
def mockSQLDefault : SQLGenerationResponse :=
  { query := "SELECT c.id, c.first_name AS firstName, c.last_name AS lastName, c.email, \n              SUM(pt.points) AS points \n              FROM customers c\n              JOIN points_transactions pt ON c.id = pt.customer_id\n              GROUP BY c.id, c.first_name, c.last_name, c.email\n              ORDER BY points DESC\n              LIMIT 5",
    understanding := "I\x27ve interpreted your question as a request to see customers with the most loyalty points." }

/-- Embeds `generateMockSQLResponse` from `openai.ts`: a canned SQL response
chosen by keyword matching on the lowercased question. -/
def generateMockSQLResponse (question : String) : SQLGenerationResponse :=
  let lowerQuestion := jsToLower question
  if jsIncludes lowerQuestion "top" && jsIncludes lowerQuestion "point" then
    mockSQLTopPoints
  else if jsIncludes lowerQuestion "expiring" then
    mockSQLExpiring
  else if jsIncludes lowerQuestion "challenge" && jsIncludes lowerQuestion "completion" then
    mockSQLChallengeCompletion
  else
    mockSQLDefault

/-- Embeds `generateMockAnalysisResponse` from `openai.ts`: a canned analysis
chosen by keyword matching on the lowercased question (the `data`
argument is accepted but unused, as in the source). -/
def generateMockAnalysisResponse (question : String) (_data : List Row) : AnalysisResponse :=
  let lowerQuestion := jsToLower question
  if jsIncludes lowerQuestion "top" && jsIncludes lowerQuestion "point" then
    { title := "Top Points Earners Analysis",
      insights :=
        [ { id := 1, text := "The top 5 customers have earned a combined total of <span class=\x27font-medium\x27>12,267 points</span>, representing approximately 24% of all points in the program." },
          { id := 2, text := "The highest earner has <span class=\x27font-medium\x27>3,542 points</span>, which is 22% more than the second-highest earner." },
          { id := 3, text := "All top 5 customers have been active in the program for at least <span class=\x27font-medium\x27>6 months</span>." } ],
      recommendations :=
        [ { id := 1, title := "VIP Recognition Campaign",
            description := "Send a personalized thank-you email to these top 5 customers, acknowledging their loyalty and offering an exclusive reward.",
            type := "email" },
          { id := 2, title := "Strategic Tier Expansion",
            description := "Create a new \x27Diamond\x27 tier that starts at 3,000 points to motivate your top customers to maintain their status and encourage others to reach it.",
            type := "award" } ] }
  else if jsIncludes lowerQuestion "expiring" then
    { title := "Points Expiration Risk Analysis",
      insights :=
        [ { id := 1, text := "Five customers have a combined <span class=\x27font-medium\x27>4,340 points</span> at risk of expiring within the next 30 days." },
          { id := 2, text := "Customer Andy Bernard has the highest number of expiring points at <span class=\x27font-medium\x27>1,275</span>, representing 29% of all expiring points." },
          { id := 3, text := "The average number of expiring points per customer is <span class=\x27font-medium\x27>868</span>." } ],
      recommendations :=
        [ { id := 1, title := "Expiration Reminder Campaign",
            description := "Send targeted emails to these 5 customers, alerting them of their expiring points and suggesting specific redemption options based on their point balance.",
            type := "email" },
          { id := 2, title := "Limited-Time Bonus Redemption",
            description := "Offer a 10% bonus value on redemptions made within the next 2 weeks to encourage these customers to use their points before expiration.",
            type := "award" } ] }
  else if jsIncludes lowerQuestion "challenge" && jsIncludes lowerQuestion "completion" then
    { title := "Challenge Completion Rate Analysis",
      insights :=
        [ { id := 1, text := "The \x27First Purchase\x27 challenge has the highest completion rate at <span class=\x27font-medium\x27>75.6%</span>, while the \x27Referral Drive\x27 has the lowest at <span class=\x27font-medium\x27>40.1%</span>." },
          { id := 2, text := "The \x27Summer Bonus\x27 challenge has the most completions at <span class=\x27font-medium\x27>542</span>, despite having only a 45.2% completion rate." },
          { id := 3, text := "Simpler challenges like \x27First Purchase\x27 and \x27Loyalty Anniversary\x27 have significantly higher completion rates (>70%) than more complex challenges." } ],
      recommendations :=
        [ { id := 1, title := "Referral Program Enhancement",
            description := "Simplify the \x27Referral Drive\x27 challenge requirements and increase the reward to improve its 40.1% completion rate.",
            type := "other" },
          { id := 2, title := "Mid-Challenge Engagement Push",
            description := "For the \x27Summer Bonus\x27 challenge, send encouragement emails to the 658 participants who haven\x27t completed it yet, with clear instructions on remaining steps.",
            type := "email" } ] }
  else
    { title := "Customer Loyalty Points Analysis",
      insights :=
        [ { id := 1, text := "The top 5 customers have accumulated a total of <span class=\x27font-medium\x27>13,267 points</span> in your loyalty program." },
          { id := 2, text := "The average point balance among these top customers is <span class=\x27font-medium\x27>2,653</span>, which is significantly higher than your program average." },
          { id := 3, text := "There\x27s a <span class=\x27font-medium\x27>22%</span> gap between your highest and second-highest point earners." } ],
      recommendations :=
        [ { id := 1, title := "Exclusive Rewards Tier",
            description := "Create a special rewards tier for customers with over 2,500 points to recognize their loyalty and encourage continued engagement.",
            type := "award" },
          { id := 2, title := "Targeted Milestone Campaign",
            description := "Send personalized emails to customers approaching point milestones (e.g., 3,000 points) with special offers to encourage them to reach the next level.",
            type := "email" } ] }

/-- The process-wide mutable state of `openai.ts`: the
`global.apiKeyQuotaExceeded` flag (initially `false`). -/
structure LlmState where
  apiKeyQuotaExceeded : Bool
deriving DecidableEq, Repr

/-- The error object caught from a failing OpenAI call: HTTP status and
the optional `error.type` / `error.code` fields inspected by the source. -/
structure JsApiError where
  status : Option Nat
  errType : Option String
  errCode : Option String
deriving DecidableEq, Repr

/-- The quota test from the catch blocks of `generateSQL` and
`analyzeQueryResults`:
a 429 status, or an error type or code equal to insufficient_quota. -/
def isQuotaError (e : JsApiError) : Bool :=
  e.status == some 429 || e.errType == some "insufficient_quota" ||
    e.errCode == some "insufficient_quota"

/-- Outcome of one live OpenAI chat-completion call, with the JSON-mode
response already parsed into the expected shape (`ok`), or a rejection. -/
inductive LlmOutcome (α : Type) where
  | ok (v : α)
  | err (e : JsApiError)
deriving DecidableEq, Repr

/-- Embeds `isValidApiKey` from `openai.ts`: false when the quota flag is set,
otherwise requires the key to be present (truthy), start with `sk-`,
and have length greater than 20. -/
def isValidApiKey (key : Option String) (st : LlmState) : Bool :=
  if st.apiKeyQuotaExceeded then false
  else
    match key with
    | none => false
    | some k => k != "" && jsStartsWith k "sk-" && k.data.length > 20

/-- Embeds `generateSQL` from `openai.ts`, as a state transformer over the
quota flag.  Returns the response, the new state, and whether a live
LLM call was made. -/
def generateSQL (key : Option String) (outcome : LlmOutcome SQLGenerationResponse)
    (st : LlmState) (question : String) : SQLGenerationResponse × LlmState × Bool :=
  if !(isValidApiKey key st) then
    (generateMockSQLResponse question, st, false)
  else
    match outcome with
    | .ok r => (r, st, true)
    | .err e =>
      let st' := if isQuotaError e then { st with apiKeyQuotaExceeded := true } else st
      (generateMockSQLResponse question, st', true)

/-- Embeds `analyzeQueryResults` from `openai.ts`, as a state transformer over
the quota flag.  Returns the response, the new state, and whether a live
LLM call was made. -/
def analyzeQueryResults (key : Option String) (outcome : LlmOutcome AnalysisResponse)
    (st : LlmState) (question : String) (data : List Row) (_sqlQuery : String) :
    AnalysisResponse × LlmState × Bool :=
  if !(isValidApiKey key st) then
    (generateMockAnalysisResponse question data, st, false)
  else
    match outcome with
    | .ok r => (r, st, true)
    | .err e =>
      let st' := if isQuotaError e then { st with apiKeyQuotaExceeded := true } else st
      (generateMockAnalysisResponse question data, st', true)

/-- One call into `openai.ts` together with the outcome the live LLM
would produce for it. -/
inductive LlmCall where
  | genSQL (question : String) (outcome : LlmOutcome SQLGenerationResponse)
  | analyze (question : String) (data : List Row) (sqlQuery : String)
      (outcome : LlmOutcome AnalysisResponse)

/-- Result of one `LlmCall`. -/
inductive LlmCallResult where
  | sqlRes (r : SQLGenerationResponse)
  | anaRes (r : AnalysisResponse)
deriving DecidableEq, Repr

/-- Dispatch one call to the corresponding `openai.ts` function. -/
def llmStep (key : Option String) (st : LlmState) : LlmCall → LlmCallResult × LlmState × Bool
  | .genSQL q outcome =>
    let (r, st', live) := generateSQL key outcome st q
    (.sqlRes r, st', live)
  | .analyze q data sql outcome =>
    let (r, st', live) := analyzeQueryResults key outcome st q data sql
    (.anaRes r, st', live)

/-- Run a sequence of calls through the process, threading the quota
flag; records each result and whether a live LLM call happened. -/
def runLlm (key : Option String) (st : LlmState) :
    List LlmCall → LlmState × List (LlmCallResult × Bool)
  | [] => (st, [])
  | c :: cs =>
    let (r, st', live) := llmStep key st c
    let (stFin, rest) := runLlm key st' cs
    (stFin, (r, live) :: rest)

/-- The canned mock result for one call (what `openai.ts` serves when it
does not talk to the LLM). -/
def mockResultFor : LlmCall → LlmCallResult
  | .genSQL q _ => .sqlRes (generateMockSQLResponse q)
  | .analyze q data _ _ => .anaRes (generateMockAnalysisResponse q data)

/-- The hardcoded fallback schema from `QueryService.getDatabaseSchema`
(served when the schema API call fails). -/
def fallbackSchema : DatabaseSchema :=
  { tables :=
    [ { name := "customers",
        description := "Customer information for loyalty program members",
        columns :=
          [ { name := "id", type := "integer", description := "Unique customer identifier" },
            { name := "first_name", type := "text", description := "Customer\x27s first name" },
            { name := "last_name", type := "text", description := "Customer\x27s last name" },
            { name := "email", type := "text", description := "Customer\x27s email address" },
            { name := "created_at", type := "timestamp", description := "When the customer joined" },
            { name := "status", type := "text", description := "Account status (active, inactive)" } ] },
      { name := "points_transactions",
        description := "Records of points earned or redeemed by customers",
        columns :=
          [ { name := "id", type := "integer", description := "Unique transaction identifier" },
            { name := "customer_id", type := "integer", description := "References customers.id" },
            { name := "points", type := "integer", description := "Points earned (positive) or redeemed (negative)" },
            { name := "type", type := "text", description := "Transaction type (earn, redeem)" },
            { name := "category", type := "text", description := "Category (purchase, referral, challenge, social)" },
            { name := "created_at", type := "timestamp", description := "When the transaction occurred" } ] },
      { name := "challenges",
        description := "Loyalty program challenges that customers can complete to earn points",
        columns :=
          [ { name := "id", type := "integer", description := "Unique challenge identifier" },
            { name := "name", type := "text", description := "Challenge name" },
            { name := "description", type := "text", description := "Challenge description" },
            { name := "points", type := "integer", description := "Points awarded for completion" },
            { name := "start_date", type := "timestamp", description := "When the challenge starts" },
            { name := "end_date", type := "timestamp", description := "When the challenge ends" },
            { name := "status", type := "text", description := "Challenge status (active, completed, expired)" } ] },
      { name := "challenge_completions",
        description := "Records of challenges completed by customers",
        columns :=
          [ { name := "id", type := "integer", description := "Unique completion identifier" },
            { name := "customer_id", type := "integer", description := "References customers.id" },
            { name := "challenge_id", type := "integer", description := "References challenges.id" },
            { name := "completed_at", type := "timestamp", description := "When the challenge was completed" },
            { name := "points_awarded", type := "integer", description := "Points awarded for completion" } ] } ] }

/-- Embeds `QueryService.getDatabaseSchema` from `queryService.ts`: serves the
cached schema when present; otherwise fetches it (caching the response)
or, if the API call fails, caches and serves `fallbackSchema`.  Returns
the schema, the new cache, and whether an API request was made. -/
def getDatabaseSchema (cache : Option DatabaseSchema)
    (apiOutcome : ApiCallResult DatabaseSchema) :
    DatabaseSchema × Option DatabaseSchema × Bool :=
  match cache with
  | some s => (s, some s, false)
  | none =>
    match apiOutcome with
    | .success d => (d, some d, true)
    | .failure => (fallbackSchema, some fallbackSchema, true)

/-- Run a sequence of `getDatabaseSchema` calls (one API outcome per
call), threading the module-level `schemaCache`. -/
def runGetSchema (cache : Option DatabaseSchema) :
    List (ApiCallResult DatabaseSchema) →
      Option DatabaseSchema × List (DatabaseSchema × Bool)
  | [] => (cache, [])
  | o :: os =>
    let (s, cache', called) := getDatabaseSchema cache o
    let (cacheFin, rest) := runGetSchema cache' os
    (cacheFin, (s, called) :: rest)

/-- The `metadata` object carried with query results:
`{ count, executionTime }` (`executionTime` in tenths of a second). -/
structure ToolMetadata where
  count : Int
  executionTime : Int
deriving DecidableEq, Repr

/-- The JSON object produced by the SQL query tool / mock data tool and
parsed by the agent: optional `error`, `data` and `metadata` keys. -/
structure ToolResult where
  error : Option String
  data : Option (List Row)
  metadata : Option ToolMetadata
deriving DecidableEq, Repr

/-- Embeds `getMockCustomers` from `tools.ts`. -/
def getMockCustomers : List Row :=
  [ [("id", JVal.jnum 1), ("first_name", JVal.jstr "Michael"), ("last_name", JVal.jstr "Scott"),
     ("email", JVal.jstr "mscott@example.com"), ("points", JVal.jnum 3542), ("created_at", JVal.jstr "2023-01-15")],
    [("id", JVal.jnum 2), ("first_name", JVal.jstr "Jim"), ("last_name", JVal.jstr "Halpert"),
     ("email", JVal.jstr "jhalpert@example.com"), ("points", JVal.jnum 2891), ("created_at", JVal.jstr "2023-01-20")],
    [("id", JVal.jnum 3), ("first_name", JVal.jstr "Pam"), ("last_name", JVal.jstr "Beesly"),
     ("email", JVal.jstr "pbeesly@example.com"), ("points", JVal.jnum 2745), ("created_at", JVal.jstr "2023-01-22")],
    [("id", JVal.jnum 4), ("first_name", JVal.jstr "Dwight"), ("last_name", JVal.jstr "Schrute"),
     ("email", JVal.jstr "dschrute@example.com"), ("points", JVal.jnum 2103), ("created_at", JVal.jstr "2023-02-01")],
    [("id", JVal.jnum 5), ("first_name", JVal.jstr "Kelly"), ("last_name", JVal.jstr "Kapoor"),
     ("email", JVal.jstr "kkapoor@example.com"), ("points", JVal.jnum 1986), ("created_at", JVal.jstr "2023-02-15")] ]

/-- Embeds `getMockTransactions` from `tools.ts`. -/
def getMockTransactions : List Row :=
  [ [("id", JVal.jnum 1), ("customer_id", JVal.jnum 1), ("points", JVal.jnum 500),
     ("transaction_date", JVal.jstr "2023-05-01"), ("expiry_date", JVal.jstr "2024-05-01"),
     ("source", JVal.jstr "purchase"), ("description", JVal.jstr "Online purchase")],
    [("id", JVal.jnum 2), ("customer_id", JVal.jnum 1), ("points", JVal.jnum 200),
     ("transaction_date", JVal.jstr "2023-05-15"), ("expiry_date", JVal.jstr "2024-05-15"),
     ("source", JVal.jstr "referral"), ("description", JVal.jstr "Friend referral")],
    [("id", JVal.jnum 3), ("customer_id", JVal.jnum 2), ("points", JVal.jnum 350),
     ("transaction_date", JVal.jstr "2023-05-05"), ("expiry_date", JVal.jstr "2024-05-05"),
     ("source", JVal.jstr "purchase"), ("description", JVal.jstr "In-store purchase")],
    [("id", JVal.jnum 4), ("customer_id", JVal.jnum 3), ("points", JVal.jnum (-150)),
     ("transaction_date", JVal.jstr "2023-05-20"), ("expiry_date", JVal.jnull),
     ("source", JVal.jstr "redemption"), ("description", JVal.jstr "Gift card redemption")],
    [("id", JVal.jnum 5), ("customer_id", JVal.jnum 4), ("points", JVal.jnum 425),
     ("transaction_date", JVal.jstr "2023-05-10"), ("expiry_date", JVal.jstr "2024-05-10"),
     ("source", JVal.jstr "purchase"), ("description", JVal.jstr "Mobile app purchase")] ]

/-- Embeds `getMockChallenges` from `tools.ts`. -/
def getMockChallenges : List Row :=
  [ [("id", JVal.jnum 1), ("name", JVal.jstr "Summer Bonus"), ("description", JVal.jstr "Make 3 purchases in June"),
     ("points", JVal.jnum 500), ("start_date", JVal.jstr "2023-06-01"), ("end_date", JVal.jstr "2023-06-30"),
     ("active", JVal.jbool true)],
    [("id", JVal.jnum 2), ("name", JVal.jstr "Referral Drive"), ("description", JVal.jstr "Refer a friend to join our program"),
     ("points", JVal.jnum 300), ("start_date", JVal.jstr "2023-05-01"), ("end_date", JVal.jstr "2023-07-31"),
     ("active", JVal.jbool true)],
    [("id", JVal.jnum 3), ("name", JVal.jstr "Social Media"), ("description", JVal.jstr "Share your purchase on social media"),
     ("points", JVal.jnum 150), ("start_date", JVal.jstr "2023-04-15"), ("end_date", JVal.jstr "2023-08-15"),
     ("active", JVal.jbool true)],
    [("id", JVal.jnum 4), ("name", JVal.jstr "First Purchase"), ("description", JVal.jstr "Complete your first purchase"),
     ("points", JVal.jnum 200), ("start_date", JVal.jstr "2023-01-01"), ("end_date", JVal.jstr "2023-12-31"),
     ("active", JVal.jbool true)],
    [("id", JVal.jnum 5), ("name", JVal.jstr "Loyalty Anniversary"), ("description", JVal.jstr "Celebrate your 1-year membership"),
     ("points", JVal.jnum 500), ("start_date", JVal.jstr "2023-01-01"), ("end_date", JVal.jstr "2023-12-31"),
     ("active", JVal.jbool true)] ]

/-- Embeds `getMockChallengeCompletions` from `tools.ts` (the tool-side list,
distinct from the `QueryService` one). -/
def getMockChallengeCompletionsTool : List Row :=
  [ [("id", JVal.jnum 1), ("customer_id", JVal.jnum 1), ("challenge_id", JVal.jnum 1),
     ("completion_date", JVal.jstr "2023-06-15"), ("points_awarded", JVal.jnum 500)],
    [("id", JVal.jnum 2), ("customer_id", JVal.jnum 1), ("challenge_id", JVal.jnum 4),
     ("completion_date", JVal.jstr "2023-01-20"), ("points_awarded", JVal.jnum 200)],
    [("id", JVal.jnum 3), ("customer_id", JVal.jnum 2), ("challenge_id", JVal.jnum 2),
     ("completion_date", JVal.jstr "2023-05-25"), ("points_awarded", JVal.jnum 300)],
    [("id", JVal.jnum 4), ("customer_id", JVal.jnum 3), ("challenge_id", JVal.jnum 3),
     ("completion_date", JVal.jstr "2023-05-10"), ("points_awarded", JVal.jnum 150)],
    [("id", JVal.jnum 5), ("customer_id", JVal.jnum 5), ("challenge_id", JVal.jnum 4),
     ("completion_date", JVal.jstr "2023-02-18"), ("points_awarded", JVal.jnum 200)] ]

/-- A successful mock-tool payload `{ data, metadata: { count, executionTime: 0 } }`. -/
def mockToolOk (rows : List Row) : ToolResult :=
  { error := none, data := some rows, metadata := some { count := rows.length, executionTime := 0 } }

/-- The function of `createMockDataTool` from `tools.ts`: dispatches on
the lowercased, trimmed data type and returns mock rows with metadata,
or an unknown-type error object. -/
def mockDataToolFunc (dataType : String) : ToolResult :=
  let t := jsTrim (jsToLower dataType)
  if t == "customers" || t == "customer" then mockToolOk getMockCustomers
  else if t == "transactions" || t == "points" || t == "points_transactions" then
    mockToolOk getMockTransactions
  else if t == "challenges" || t == "challenge" then mockToolOk getMockChallenges
  else if t == "completions" || t == "challenge_completions" then
    mockToolOk getMockChallengeCompletionsTool
  else
    { error := some ("Unknown data type: " ++ dataType ++
        ". Valid types are: customers, transactions, challenges, completions."),
      data := none, metadata := none }

/-- The `{ data, metadata?, error? }` response of `ApiClient.executeQuery`
from `apiClient.ts` (that method catches all failures internally and
always resolves with this shape). -/
structure QueryApiResponse where
  data : List Row
  metadata : Option ToolMetadata
  error : Option String
deriving DecidableEq, Repr

/-- The function of `createSqlQueryTool` from `tools.ts`, instrumented
with the number of upstream data-API calls it performs.  Non-SELECT
input is rejected before any API call. -/
def sqlQueryToolFunc (api : String → QueryApiResponse) (sqlQuery : String) : ToolResult × Nat :=
  if !(jsStartsWith (jsToLower (jsTrim sqlQuery)) "select") then
    ({ error := some "Only SELECT queries are allowed for security reasons.",
       data := none, metadata := none }, 0)
  else
    let response := api sqlQuery
    if jsTruthyStr response.error then
      ({ error := response.error, data := some [], metadata := none }, 1)
    else
      ({ error := none, data := some response.data, metadata := response.metadata }, 1)

/-- The `databaseResults` object `{ count, time }` of a query response
(`time` in tenths of a second). -/
structure DatabaseResults where
  count : Int
  time : Int
deriving DecidableEq, Repr

/-- The `QueryResult` returned by the pipeline and serialised as the
`POST /api/query` success body: exactly the fields `queryUnderstanding`,
`sqlQuery`, `databaseResults`, `title`, `data`, `insights`,
`recommendations`. -/
structure QueryResult where
  queryUnderstanding : String
  sqlQuery : String
  databaseResults : DatabaseResults
  title : String
  data : List Row
  insights : List Insight
  recommendations : List Recommendation
deriving DecidableEq, Repr

/-- The object produced by `JSON.parse` on the insights chain output:
each expected key may be absent. -/
structure ParsedInsights where
  title : Option String
  insights : Option (List Insight)
  recommendations : Option (List Recommendation)

/-- Environment of `LoyaltyAgent` (`agent.ts`): outcomes of the two LLM
chains, the SQL tool invocation (invoke plus `JSON.parse`, which the
agent wraps in its own try/catch), and the `JSON.parse` of the insights
chain output. -/
structure AgentEnv where
  sqlChain : String → Except String String
  sqlToolRun : String → Except String ToolResult
  insightsChain : String → String → List Row → Except String String
  parseInsights : String → Option ParsedInsights

/-- Mock-type selection in `LoyaltyAgent.processQuestion` (`agent.ts`):
keyword dispatch over the lowercased SQL text. -/
def chooseMockType (sqlQuery : String) : String :=
  let sqlLower := jsToLower sqlQuery
  if jsIncludes sqlLower "points_transactions" || jsIncludes sqlLower "transaction" then
    "transactions"
  else if jsIncludes sqlLower "challenges" && !(jsIncludes sqlLower "challenge_completions") then
    "challenges"
  else if jsIncludes sqlLower "challenge_completions" || jsIncludes sqlLower "completion" then
    "completions"
  else
    "customers"

/-- Embeds `extractQueryUnderstanding` from `agent.ts`. -/
def extractQueryUnderstanding (question : String) : String :=
  "I\x27m looking for loyalty program data that answers: \"" ++ question ++ "\""

/-- The fallback `QueryResult` built in the outer catch of
`LoyaltyAgent.processQuestion` (identical in `agent.ts` and in the
simplified agent). -/
def errorFallback (msg : String) : QueryResult :=
  { queryUnderstanding := "There was an error understanding your question.",
    sqlQuery := "",
    databaseResults := { count := 0, time := 0 },
    title := "Error Processing Query",
    data := [],
    insights := [{ id := 1, text := "Error: " ++ msg }],
    recommendations :=
      [{ id := 1, title := "Try Again",
         description := "Please try rephrasing your question or ask something else.",
         type := "other" }] }

/-- The placeholder insights used when the insights chain itself fails
(`agent.ts`). -/
def insightsChainFailFallback : AnalysisResponse :=
  { title := "Data Analysis",
    insights := [{ id := 1, text := "Unable to generate insights from the data." }],
    recommendations :=
      [{ id := 1, title := "Review Query",
         description := "The current query may not be providing enough data for meaningful analysis.",
         type := "other" }] }

/-- The placeholder insights used when the insights JSON cannot be
parsed (`agent.ts`). -/
def insightsParseFailFallback : AnalysisResponse :=
  { title := "Data Analysis",
    insights := [{ id := 1, text := "Unable to parse insights from the analysis." }],
    recommendations :=
      [{ id := 1, title := "Retry Query",
         description := "Please try rephrasing your question for better results.",
         type := "other" }] }

/-- The body of the `try` block of `LoyaltyAgent.processQuestion`
(`agent.ts`); an `Except.error` models an exception reaching the outer
catch. -/
def processQuestionBody (env : AgentEnv) (question : String) : Except String QueryResult := do
  let sqlQuery ← env.sqlChain question
  let step2 : ToolResult × Bool :=
    match env.sqlToolRun sqlQuery with
    | .ok qr => (qr, jsTruthyStr qr.error)
    | .error _ =>
      ({ error := some "Failed to execute query", data := some [], metadata := none }, true)
  let queryResults := step2.1
  let isError := step2.2
  let queryResults :=
    if isError || !queryResults.data.isSome || (queryResults.data.getD []).length == 0 then
      mockDataToolFunc (chooseMockType sqlQuery)
    else queryResults
  let data := queryResults.data.getD []
  let metadata := queryResults.metadata.getD { count := data.length, executionTime := 0 }
  let insights : AnalysisResponse :=
    match env.insightsChain question sqlQuery data with
    | .error _ => insightsChainFailFallback
    | .ok insightsJson =>
      match env.parseInsights insightsJson with
      | none => insightsParseFailFallback
      | some parsed =>
        { title := jsOrStr parsed.title "Data Analysis",
          insights := parsed.insights.getD [],
          recommendations := parsed.recommendations.getD [] }
  pure
    { queryUnderstanding := extractQueryUnderstanding question,
      sqlQuery := sqlQuery,
      databaseResults := { count := metadata.count, time := metadata.executionTime },
      title := insights.title,
      data := data,
      insights := insights.insights,
      recommendations := insights.recommendations }

/-- Embeds `LoyaltyAgent.processQuestion` (`agent.ts`): the try body with the
outer catch that converts any exception into `errorFallback`. -/
def processQuestion (env : AgentEnv) (question : String) : QueryResult :=
  match processQuestionBody env question with
  | .ok r => r
  | .error e => errorFallback (jsOrStr (some e) "Unknown error occurred")

/-- A `POST /api/query` request body; the handlers read the `query`
field, the spec speaks of a `question` field, so both are modelled. -/
structure ReqBody where
  query : Option String
  question : Option String

/-- A JSON response sent by a route handler: either `res.json(result)`
(HTTP 200) or `res.status(s).json({ message, error? })`. -/
inductive RouteResponse where
  | okJson (r : QueryResult)
  | errJson (status : Nat) (message : String) (error : Option String)
deriving DecidableEq, Repr

/-- JavaScript truthiness of the destructured `query` body field. -/
def queryFieldTruthy (body : ReqBody) : Bool := jsTruthyStr body.query

/-- The sequential steps of the `POST /api/query` handler in `routes.ts`:
schema fetch, SQL generation, query execution, analysis (each may
reject), and the measured query time. -/
structure RoutesSteps where
  getSchema : Except String DatabaseSchema
  genSQL : String → DatabaseSchema → Except String SQLGenerationResponse
  execQuery : String → Except String (List Row)
  analyze : String → List Row → String → Except String AnalysisResponse
  queryTime : Int

/-- The pipeline inside the `try` block of the `routes.ts` handler,
ending in the response assembly where `databaseResults.count` is
`queryResults.length` and `data` is `queryResults`. -/
def routesPipeline (s : RoutesSteps) (q : String) : Except String QueryResult := do
  let dbSchema ← s.getSchema
  let gen ← s.genSQL q dbSchema
  let rows ← s.execQuery gen.query
  let analysis ← s.analyze q rows gen.query
  pure
    { queryUnderstanding := gen.understanding,
      sqlQuery := gen.query,
      databaseResults := { count := rows.length, time := s.queryTime },
      title := analysis.title,
      data := rows,
      insights := analysis.insights,
      recommendations := analysis.recommendations }

/-- The `POST /api/query` handler of `routes.ts`: 400 when the `query`
body field is falsy, 500 with `{ message, error }` when the pipeline
rejects, otherwise the assembled JSON. -/
def routesPostApiQuery (s : RoutesSteps) (body : ReqBody) : RouteResponse :=
  if !queryFieldTruthy body then
    .errJson 400 "Query is required" none
  else
    match routesPipeline s (body.query.getD "") with
    | .ok r => .okJson r
    | .error e => .errJson 500 "Error processing query" (some e)

/-- The `POST /api/query` handler of the LangChain `routes.ts` variant:
400 when the `query` body field is falsy, otherwise the agent result,
with a 500 `{ message, error }` response if the agent rejects. -/
def agentPostApiQuery (agent : String → Except String QueryResult) (body : ReqBody) :
    RouteResponse :=
  if !queryFieldTruthy body then
    .errJson 400 "Query is required" none
  else
    match agent (body.query.getD "") with
    | .ok r => .okJson r
    | .error e => .errJson 500 "Error processing query" (some (jsOrStr (some e) "Unknown error"))

/-- Environment of the simplified `LoyaltyAgent` (the agent used by the
LangChain route variant): model invocations, the direct axios query
call (resolving with `(results, count, time)` coerced through `|| 0` /
`|| []`), and the `JSON.parse` of the extracted insights JSON. -/
structure Agent2Env where
  modelSql : String → Except String String
  apiExec : String → ApiCallResult (List Row × Int × Int)
  modelInsights : String → String → List Row → Except String String
  parseJson : String → Option ParsedInsights

/-- Embeds `getMockData` of the simplified agent: keyword dispatch over the
lowercased SQL text to one of the tool mock datasets. -/
def agent2GetMockData (sqlQuery : String) : List Row :=
  let sqlLower := jsToLower sqlQuery
  if jsIncludes sqlLower "points_transactions" || jsIncludes sqlLower "transaction" then
    getMockTransactions
  else if jsIncludes sqlLower "challenges" && !(jsIncludes sqlLower "challenge_completions") then
    getMockChallenges
  else if jsIncludes sqlLower "challenge_completions" || jsIncludes sqlLower "completion" then
    getMockChallengeCompletionsTool
  else
    getMockCustomers

/-- Embeds `generateSQL` of the simplified agent: trims the model output;
rethrows failures as `Failed to generate SQL: ...`. -/
def agent2GenerateSQL (env : Agent2Env) (question : String) : Except String String :=
  match env.modelSql question with
  | .ok content => .ok (jsTrim content)
  | .error e => .error ("Failed to generate SQL: " ++ jsOrStr (some e) "Unknown error")

/-- Embeds `executeQuery` of the simplified agent: on axios failure falls back
to mock rows with metadata `{ count: 5, time: 0.1 }`. -/
def agent2ExecuteQuery (env : Agent2Env) (sqlQuery : String) : List Row × DatabaseResults :=
  match env.apiExec sqlQuery with
  | .success (rows, cnt, t) => (rows, { count := cnt, time := t })
  | .failure => (agent2GetMockData sqlQuery, { count := 5, time := 1 })

/-- An opening brace character (written via its code point). -/
def lbraceChar : Char := Char.ofNat 123

/-- A closing brace character (written via its code point). -/
def rbraceChar : Char := Char.ofNat 125

/-- The greedy regex extraction of the simplified agent, which matches
from the first opening brace to the last closing brace (when the latter
comes after the former). -/
def jsonExtract (s : String) : Option String :=
  match s.data.findIdx? (· == lbraceChar) with
  | none => none
  | some i =>
    match s.data.reverse.findIdx? (· == rbraceChar) with
    | none => none
    | some jr =>
      let j := s.data.length - 1 - jr
      if i < j then some (String.mk ((s.data.drop i).take (j - i + 1))) else none

/-- Embeds `generateInsights` of the simplified agent: every failure (model
call, JSON extraction, JSON parse) collapses to the same placeholder. -/
def agent2GenerateInsights (env : Agent2Env) (question sqlQuery : String) (data : List Row) :
    AnalysisResponse :=
  match env.modelInsights question sqlQuery data with
  | .error _ => insightsChainFailFallback
  | .ok text =>
    match jsonExtract (jsTrim text) with
    | none => insightsChainFailFallback
    | some jsonStr =>
      match env.parseJson jsonStr with
      | none => insightsChainFailFallback
      | some parsed =>
        { title := jsOrStr parsed.title "Data Analysis",
          insights := parsed.insights.getD [],
          recommendations := parsed.recommendations.getD [] }

/-- The `try` body of the simplified agent's `processQuestion`. -/
def agent2ProcessQuestionBody (env : Agent2Env) (question : String) : Except String QueryResult := do
  let sqlQuery ← agent2GenerateSQL env question
  let dataMeta := agent2ExecuteQuery env sqlQuery
  let analysis := agent2GenerateInsights env question sqlQuery dataMeta.1
  pure
    { queryUnderstanding := extractQueryUnderstanding question,
      sqlQuery := sqlQuery,
      databaseResults := { count := dataMeta.2.count, time := dataMeta.2.time },
      title := analysis.title,
      data := dataMeta.1,
      insights := analysis.insights,
      recommendations := analysis.recommendations }

/-- Embeds `processQuestion` of the simplified agent: try body plus the outer
catch producing `errorFallback`. -/
def agent2ProcessQuestion (env : Agent2Env) (question : String) : QueryResult :=
  match agent2ProcessQuestionBody env question with
  | .ok r => r
  | .error e => errorFallback (jsOrStr (some e) "Unknown error occurred")

/-- A file of the schema directory: its name and the `Table` value its
YAML content parses to (`none` when the content is not a valid table,
for example missing `name` or `columns`). -/
abbrev SchemaFile := String × Option Table

/-- The `.yml` / `.yaml` filter of `loadDatabaseSchema`. -/
def isYamlName (n : String) : Bool := jsEndsWith n ".yml" || jsEndsWith n ".yaml"

/-- Embeds `fs.writeFileSync` on the schema directory: overwrite an existing
entry or append a new one. -/
def writeSchemaFile (files : List SchemaFile) (name : String) (content : Option Table) :
    List SchemaFile :=
  if files.any (fun p => p.1 == name) then
    files.map (fun p => if p.1 == name then (name, content) else p)
  else files ++ [(name, content)]

/-- The sample `customers` table written by `createSampleSchemaFile`. -/
def sampleCustomersTable : Table :=
  { name := "customers",
    description := "Contains customer information and their loyalty points",
    columns :=
      [ { name := "id", type := "integer", description := "Unique identifier for the customer" },
        { name := "first_name", type := "text", description := "Customer\x27s first name" },
        { name := "last_name", type := "text", description := "Customer\x27s last name" },
        { name := "email", type := "text", description := "Customer\x27s email address" },
        { name := "points", type := "integer", description := "Current loyalty points balance" },
        { name := "created_at", type := "timestamp", description := "Date when the customer joined the loyalty program" } ] }

/-- The sample `points_transactions` table written by `createSampleSchemaFile`. -/
def samplePointsTransactionsTable : Table :=
  { name := "points_transactions",
    description := "Records of points earned or redeemed by customers",
    columns :=
      [ { name := "id", type := "integer", description := "Unique identifier for the transaction" },
        { name := "customer_id", type := "integer", description := "Reference to the customer who earned or redeemed points" },
        { name := "points", type := "integer", description := "Number of points (positive for earned, negative for redeemed)" },
        { name := "transaction_date", type := "timestamp", description := "Date when the transaction occurred" },
        { name := "expiry_date", type := "timestamp", description := "Date when the points will expire, if applicable" },
        { name := "source", type := "text", description := "Source of the transaction (purchase, referral, redemption, etc.)" },
        { name := "description", type := "text", description := "Additional details about the transaction" } ] }

/-- The sample `challenges` table written by `createSampleSchemaFile`. -/
def sampleChallengesTable : Table :=
  { name := "challenges",
    description := "Marketing challenges that customers can complete to earn bonus points",
    columns :=
      [ { name := "id", type := "integer", description := "Unique identifier for the challenge" },
        { name := "name", type := "text", description := "Name of the challenge" },
        { name := "description", type := "text", description := "Details about what customers need to do to complete the challenge" },
        { name := "points", type := "integer", description := "Number of points awarded for completing the challenge" },
        { name := "start_date", type := "timestamp", description := "Date when the challenge becomes available" },
        { name := "end_date", type := "timestamp", description := "Date when the challenge expires" },
        { name := "active", type := "boolean", description := "Whether the challenge is currently active" } ] }

/-- The sample `challenge_completions` table written by `createSampleSchemaFile`. -/
def sampleChallengeCompletionsTable : Table :=
  { name := "challenge_completions",
    description := "Records of challenges completed by customers",
    columns :=
      [ { name := "id", type := "integer", description := "Unique identifier for the completion record" },
        { name := "customer_id", type := "integer", description := "Reference to the customer who completed the challenge" },
        { name := "challenge_id", type := "integer", description := "Reference to the challenge that was completed" },
        { name := "completion_date", type := "timestamp", description := "Date when the customer completed the challenge" },
        { name := "points_awarded", type := "integer", description := "Number of points awarded for completing the challenge" } ] }

/-- Embeds `createSampleSchemaFile` from `schemaLoader.ts`: writes the four
sample YAML files into the directory, in source order. -/
def createSampleSchemaFile (files : List SchemaFile) : List SchemaFile :=
  writeSchemaFile
    (writeSchemaFile
      (writeSchemaFile
        (writeSchemaFile files "customers.yml" (some sampleCustomersTable))
        "points_transactions.yml" (some samplePointsTransactionsTable))
      "challenges.yml" (some sampleChallengesTable))
    "challenge_completions.yml" (some sampleChallengeCompletionsTable)

/-- Embeds `loadDatabaseSchema` from `schemaLoader.ts`.  The directory is
`none` when it does not exist (it is then created together with the
sample files); when no `.yml`/`.yaml` file is present the samples are
created and only the first found one is loaded.  Valid table files
(`tableData && tableData.name && tableData.columns`) are collected. -/
def loadDatabaseSchema (dir : Option (List SchemaFile)) : DatabaseSchema × List SchemaFile :=
  let fs1 :=
    match dir with
    | none => createSampleSchemaFile []
    | some fsFiles => fsFiles
  let files0 := (fs1.map Prod.fst).filter isYamlName
  let filesAndFs :=
    if files0.length == 0 then
      let fs' := createSampleSchemaFile fs1
      match (fs'.map Prod.fst).find? isYamlName with
      | some n => ([n], fs')
      | none => ([], fs')
    else (files0, fs1)
  let tables := filesAndFs.1.filterMap (fun n =>
    match filesAndFs.2.find? (fun p => p.1 == n) with
    | some (_, some t) => if t.name != "" then some t else none
    | _ => none)
  ({ tables := tables }, filesAndFs.2)

/-- Modelled from the spec: the uniform mock-data selection rule as the
specification words it, with the first rule keyed on "top" and "point"
(singular) and applied to the question/SQL text alike. -/
def specClaimedMockRouter (text : String) : List Row :=
  let l := jsToLower text
  if jsIncludes l "top" && jsIncludes l "point" then QueryService.getMockTopPointsEarners
  else if jsIncludes l "expiring" then QueryService.getMockExpiringPoints
  else if jsIncludes l "challenge" && jsIncludes l "completion" then
    QueryService.getMockChallengeCompletions
  else QueryService.getMockTopPointsEarners

/-- C2 counterexample: on data-API failure the mock rows of
`QueryService.executeQuery` are keyed on "top" and "points" (plural),
not "top" and "point" as claimed.  The SQL text
`"SELECT top point expiring"` contains "top" and "point", so the claimed
rule selects the top-points-earners dataset, but the code falls through
to the "expiring" rule and returns the expiring-points dataset. -/
theorem mockRouterKeywordCounterexample :
    QueryService.executeQuery .failure "SELECT top point expiring" =
      QueryService.getMockExpiringPoints
    ∧ specClaimedMockRouter "SELECT top point expiring" =
      QueryService.getMockTopPointsEarners
    ∧ QueryService.getMockExpiringPoints ≠ QueryService.getMockTopPointsEarners :=
  ⟨by decide, by decide, by decide⟩

/-- C2 (amended): the mock substitutions are selected by keyword
matching on the lowercased text in the stated order, except that the
first rule of the data-API mock router (`QueryService.executeQuery`)
requires "top" and "points" (plural), while the LLM mock router
(`generateMockSQLResponse`) requires "top" and "point"; in both, the
"expiring" rule comes next, then "challenge" plus "completion", and
every other text gets the top-points default.  Each recognized phrase
produces its expected canned dataset. -/
theorem mockRouterKeywordSelection (sql question : String) :
    ((jsIncludes (jsToLower sql) "top" && jsIncludes (jsToLower sql) "points") = true →
      QueryService.executeQuery .failure sql = QueryService.getMockTopPointsEarners)
    ∧ ((jsIncludes (jsToLower sql) "top" && jsIncludes (jsToLower sql) "points") = false →
        jsIncludes (jsToLower sql) "expiring" = true →
      QueryService.executeQuery .failure sql = QueryService.getMockExpiringPoints)
    ∧ ((jsIncludes (jsToLower sql) "top" && jsIncludes (jsToLower sql) "points") = false →
        jsIncludes (jsToLower sql) "expiring" = false →
        (jsIncludes (jsToLower sql) "challenge" && jsIncludes (jsToLower sql) "completion") = true →
      QueryService.executeQuery .failure sql = QueryService.getMockChallengeCompletions)
    ∧ ((jsIncludes (jsToLower sql) "top" && jsIncludes (jsToLower sql) "points") = false →
        jsIncludes (jsToLower sql) "expiring" = false →
        (jsIncludes (jsToLower sql) "challenge" && jsIncludes (jsToLower sql) "completion") = false →
      QueryService.executeQuery .failure sql = QueryService.getMockTopPointsEarners)
    ∧ ((jsIncludes (jsToLower question) "top" && jsIncludes (jsToLower question) "point") = true →
      generateMockSQLResponse question = mockSQLTopPoints)
    ∧ ((jsIncludes (jsToLower question) "top" && jsIncludes (jsToLower question) "point") = false →
        jsIncludes (jsToLower question) "expiring" = true →
      generateMockSQLResponse question = mockSQLExpiring)
    ∧ ((jsIncludes (jsToLower question) "top" && jsIncludes (jsToLower question) "point") = false →
        jsIncludes (jsToLower question) "expiring" = false →
        (jsIncludes (jsToLower question) "challenge" && jsIncludes (jsToLower question) "completion") = true →
      generateMockSQLResponse question = mockSQLChallengeCompletion)
    ∧ ((jsIncludes (jsToLower question) "top" && jsIncludes (jsToLower question) "point") = false →
        jsIncludes (jsToLower question) "expiring" = false →
        (jsIncludes (jsToLower question) "challenge" && jsIncludes (jsToLower question) "completion") = false →
      generateMockSQLResponse question = mockSQLDefault) := by
  refine ⟨?_, ?_, ?_, ?_, ?_, ?_, ?_, ?_⟩
  · intro h1
    simp only [QueryService.executeQuery]
    rw [h1]
    simp
  · intro h1 h2
    simp only [QueryService.executeQuery]
    rw [h1, h2]
    simp
  · intro h1 h2 h3
    simp only [QueryService.executeQuery]
    rw [h1, h2, h3]
    simp
  · intro h1 h2 h3
    simp only [QueryService.executeQuery]
    rw [h1, h2, h3]
    simp
  · intro h1
    simp only [generateMockSQLResponse]
    rw [h1]
    simp
  · intro h1 h2
    simp only [generateMockSQLResponse]
    rw [h1, h2]
    simp
  · intro h1 h2 h3
    simp only [generateMockSQLResponse]
    rw [h1, h2, h3]
    simp
  · intro h1 h2 h3
    simp only [generateMockSQLResponse]
    rw [h1, h2, h3]
    simp

/-- C2 witness: concrete recognized phrases produce their expected
canned datasets through both routers. -/
theorem mockRouterKeywordSelectionWitness :
    QueryService.executeQuery .failure "select top points earners" =
      QueryService.getMockTopPointsEarners
    ∧ generateMockSQLResponse "which challenge has the best completion rate" =
      mockSQLChallengeCompletion :=
  ⟨(mockRouterKeywordSelection "select top points earners" "x").1 (by decide),
   (mockRouterKeywordSelection "x" "which challenge has the best completion rate").2.2.2.2.2.2.1
     (by decide) (by decide) (by decide)⟩

/-- C6: `QueryService.getDatabaseSchema` is idempotent through the
process-wide `schemaCache`: a first call with an empty cache stores its
own result (the API schema, or `fallbackSchema` on API failure), and
with a populated cache every subsequent call returns exactly the cached
value with no API request, whatever the API outcomes would be — in
particular after the fallback schema is cached the API is never retried. -/
theorem schemaCacheIdempotent (o : ApiCallResult DatabaseSchema)
    (s : DatabaseSchema) (outcomes : List (ApiCallResult DatabaseSchema)) :
    (getDatabaseSchema none o).2.1 = some (getDatabaseSchema none o).1
    ∧ (getDatabaseSchema none o).1 =
        (match o with
         | .success d => d
         | .failure => fallbackSchema)
    ∧ (getDatabaseSchema none o).2.2 = true
    ∧ runGetSchema (some s) outcomes = (some s, outcomes.map fun _ => (s, false)) := by
  refine ⟨?_, ?_, ?_, ?_⟩
  · cases o <;> rfl
  · cases o <;> rfl
  · cases o <;> rfl
  · induction outcomes with
    | nil => rfl
    | cons o' os ih => simp [runGetSchema, getDatabaseSchema, ih]

/-- C3: once the quota flag is set it is never reset and disables all
live LLM calls: a live call failing with HTTP 429 or an
`insufficient_quota` error sets `apiKeyQuotaExceeded`; and from any
state with the flag set, every subsequent `generateSQL` or
`analyzeQueryResults` call in the process returns the mock response and
makes no live LLM call, leaving the flag set. -/
theorem quotaFlagPermanent (key : Option String) (st : LlmState) (q sql : String)
    (data : List Row) (eg ea : JsApiError) (og : LlmOutcome SQLGenerationResponse)
    (oa : LlmOutcome AnalysisResponse) (calls : List LlmCall) :
    (isValidApiKey key st = true → isQuotaError eg = true →
      (generateSQL key (.err eg) st q).2.1.apiKeyQuotaExceeded = true)
    ∧ (isValidApiKey key st = true → isQuotaError ea = true →
      (analyzeQueryResults key (.err ea) st q data sql).2.1.apiKeyQuotaExceeded = true)
    ∧ (st.apiKeyQuotaExceeded = true →
      (generateSQL key og st q).2.1.apiKeyQuotaExceeded = true
      ∧ (analyzeQueryResults key oa st q data sql).2.1.apiKeyQuotaExceeded = true)
    ∧ runLlm key { apiKeyQuotaExceeded := true } calls =
        ({ apiKeyQuotaExceeded := true }, calls.map fun c => (mockResultFor c, false)) := by
  refine ⟨?_, ?_, ?_, ?_⟩
  · intro hv hq
    simp [generateSQL, hv, hq]
  · intro hv hq
    simp [analyzeQueryResults, hv, hq]
  · intro hflag
    have hv : isValidApiKey key st = false := by simp [isValidApiKey, hflag]
    constructor
    · simp [generateSQL, hv, hflag]
    · simp [analyzeQueryResults, hv, hflag]
  · induction calls with
    | nil => rfl
    | cons c cs ih =>
      have hv : isValidApiKey key { apiKeyQuotaExceeded := true } = false := by
        simp [isValidApiKey]
      cases c <;> simp [runLlm, llmStep, generateSQL, analyzeQueryResults, hv, mockResultFor, ih]

/-- C3 witness: with a syntactically valid key and a clean state, a 429
failure flips the flag; and from the flagged state a concrete call
sequence is served entirely from mocks with no live calls. -/
theorem quotaFlagPermanentWitness :
    (generateSQL (some "sk-aaaaaaaaaaaaaaaaaaaaaaaa")
        (.err { status := some 429, errType := none, errCode := none })
        { apiKeyQuotaExceeded := false } "top points").2.1.apiKeyQuotaExceeded = true
    ∧ runLlm (some "sk-aaaaaaaaaaaaaaaaaaaaaaaa") { apiKeyQuotaExceeded := true }
        [.genSQL "top points" (.ok mockSQLDefault)] =
      ({ apiKeyQuotaExceeded := true },
        [(.sqlRes (generateMockSQLResponse "top points"), false)]) :=
  ⟨(quotaFlagPermanent (some "sk-aaaaaaaaaaaaaaaaaaaaaaaa") { apiKeyQuotaExceeded := false }
      "top points" "" [] { status := some 429, errType := none, errCode := none }
      { status := none, errType := none, errCode := none } (.ok mockSQLDefault)
      (.ok insightsChainFailFallback) []).1 (by decide) (by decide),
   (quotaFlagPermanent (some "sk-aaaaaaaaaaaaaaaaaaaaaaaa") { apiKeyQuotaExceeded := false }
      "top points" "" [] { status := some 429, errType := none, errCode := none }
      { status := none, errType := none, errCode := none } (.ok mockSQLDefault)
      (.ok insightsChainFailFallback)
      [.genSQL "top points" (.ok mockSQLDefault)]).2.2.2⟩

/-- C10: whenever the OpenAI key is unset, does not start with `sk-`,
has length at most 20, or the quota flag is set, `generateSQL` and
`analyzeQueryResults` return the keyword-keyed mock responses, leave the
state unchanged, and make no LLM request, regardless of what a live call
would have produced. -/
theorem invalidKeyMockDeterministic (key : Option String) (st : LlmState)
    (og : LlmOutcome SQLGenerationResponse) (oa : LlmOutcome AnalysisResponse)
    (q sql : String) (data : List Row) :
    (key = none
      ∨ (∃ k, key = some k ∧ (jsStartsWith k "sk-" = false ∨ k.data.length ≤ 20))
      ∨ st.apiKeyQuotaExceeded = true) →
    generateSQL key og st q = (generateMockSQLResponse q, st, false)
    ∧ analyzeQueryResults key oa st q data sql = (generateMockAnalysisResponse q data, st, false) := by
  intro h
  have hv : isValidApiKey key st = false := by
    rcases h with h | ⟨k, hk, hbad⟩ | h
    · cases hf : st.apiKeyQuotaExceeded <;> simp [isValidApiKey, h, hf]
    · cases hf : st.apiKeyQuotaExceeded
      · subst hk
        rcases hbad with hb | hb
        · simp [isValidApiKey, hf, hb]
        · simp only [isValidApiKey, hf]
          simp
          intro _ _
          exact hb
      · simp [isValidApiKey, hf]
    · simp [isValidApiKey, h]
  exact ⟨by simp [generateSQL, hv], by simp [analyzeQueryResults, hv]⟩

/-- C10 witness: a key that starts with `sk-` but is only 8 characters
long forces both functions to serve mocks without touching the state. -/
theorem invalidKeyMockDeterministicWitness :
    generateSQL (some "sk-short") (.ok mockSQLDefault) { apiKeyQuotaExceeded := false }
        "expiring points" =
      (generateMockSQLResponse "expiring points", { apiKeyQuotaExceeded := false }, false) :=
  (invalidKeyMockDeterministic (some "sk-short") { apiKeyQuotaExceeded := false }
    (.ok mockSQLDefault) (.ok insightsChainFailFallback) "expiring points" "" []
    (Or.inr (Or.inl ⟨"sk-short", rfl, Or.inr (by decide)⟩))).1

/-- C9: the SQL query tool rejects every input that, after trimming and
lowercasing, does not start with "select", returning the security error
object and making no upstream data-API call (its output is independent
of the API); the upstream call count is nonzero only for inputs
starting with select. -/
theorem sqlToolSelectGuard (api api' : String → QueryApiResponse) (input : String) :
    (jsStartsWith (jsToLower (jsTrim input)) "select" = false →
      sqlQueryToolFunc api input =
        ({ error := some "Only SELECT queries are allowed for security reasons.",
           data := none, metadata := none }, 0)
      ∧ sqlQueryToolFunc api input = sqlQueryToolFunc api' input)
    ∧ ((sqlQueryToolFunc api input).2 ≠ 0 →
      jsStartsWith (jsToLower (jsTrim input)) "select" = true) := by
  constructor
  · intro h
    constructor
    · simp [sqlQueryToolFunc, h]
    · simp [sqlQueryToolFunc, h]
  · intro h
    by_contra hn
    have hfalse : jsStartsWith (jsToLower (jsTrim input)) "select" = false := by
      cases hb : jsStartsWith (jsToLower (jsTrim input)) "select"
      · rfl
      · exact absurd hb hn
    apply h
    simp [sqlQueryToolFunc, hfalse]

/-- A data API stub used to exercise the tool and route handlers on
concrete inputs. -/
def demoApi : String → QueryApiResponse :=
  fun _ => { data := [], metadata := none, error := none }

/-- C9 witness: a concrete non-SELECT statement is rejected with the
security error and zero upstream calls. -/
theorem sqlToolSelectGuardWitness :
    sqlQueryToolFunc demoApi "DROP TABLE customers" =
      ({ error := some "Only SELECT queries are allowed for security reasons.",
         data := none, metadata := none }, 0) :=
  ((sqlToolSelectGuard demoApi demoApi "DROP TABLE customers").1 (by decide)).1

/-- Pipeline steps in which every stage succeeds, used to exercise the
route handlers on concrete requests. -/
def demoSteps : RoutesSteps :=
  { getSchema := .ok fallbackSchema,
    genSQL := fun _ _ => .ok { query := "SELECT 1", understanding := "demo" },
    execQuery := fun _ => .ok [],
    analyze := fun _ _ _ => .ok { title := "T", insights := [], recommendations := [] },
    queryTime := 0 }

/-- C1 counterexample: the handler keys on the `query` body field, not
`question`.  A body whose `question` field is present but whose `query`
field is absent is rejected with 400 instead of entering the pipeline,
and a body with only `query` set is not rejected. -/
theorem routeQueryFieldCounterexample :
    routesPostApiQuery demoSteps
        { query := none, question := some "show me the top point earners" } =
      .errJson 400 "Query is required" none
    ∧ routesPostApiQuery demoSteps
        { query := some "show me the top point earners", question := none } ≠
      .errJson 400 "Query is required" none :=
  ⟨by decide, by decide⟩

/-- C1 (amended): the `POST /api/query` handlers (direct and agent
variants) return HTTP 400 with `{ message: "Query is required" }` and do
not invoke the pipeline (the response is independent of it) exactly when
the `query` body field is falsy (absent or empty); a body with a truthy
`query` field proceeds into the pipeline. -/
theorem routeQueryFieldGate (s s' : RoutesSteps)
    (ag ag' : String → Except String QueryResult) (body : ReqBody) :
    (queryFieldTruthy body = false →
      routesPostApiQuery s body = .errJson 400 "Query is required" none
      ∧ routesPostApiQuery s body = routesPostApiQuery s' body
      ∧ agentPostApiQuery ag body = .errJson 400 "Query is required" none
      ∧ agentPostApiQuery ag body = agentPostApiQuery ag' body)
    ∧ (∀ q, body.query = some q → q ≠ "" →
      routesPostApiQuery s body =
        (match routesPipeline s q with
         | .ok r => .okJson r
         | .error e => .errJson 500 "Error processing query" (some e))
      ∧ agentPostApiQuery ag body =
        (match ag q with
         | .ok r => .okJson r
         | .error e =>
           .errJson 500 "Error processing query" (some (jsOrStr (some e) "Unknown error")))) := by
  constructor
  · intro h
    refine ⟨?_, ?_, ?_, ?_⟩ <;> simp [routesPostApiQuery, agentPostApiQuery, h]
  · intro q hq hne
    have ht : queryFieldTruthy body = true := by
      simp [queryFieldTruthy, jsTruthyStr, hq, hne]
    constructor
    · simp [routesPostApiQuery, ht, hq]
    · simp [agentPostApiQuery, ht, hq]

/-- C1 witness: a concrete falsy body is rejected with 400, and a
concrete truthy body reaches the pipeline. -/
theorem routeQueryFieldGateWitness :
    routesPostApiQuery demoSteps { query := none, question := none } =
      .errJson 400 "Query is required" none
    ∧ routesPostApiQuery demoSteps { query := some "top points", question := none } =
      (match routesPipeline demoSteps "top points" with
       | .ok r => .okJson r
       | .error e => .errJson 500 "Error processing query" (some e)) :=
  ⟨((routeQueryFieldGate demoSteps demoSteps (fun _ => .error "x") (fun _ => .error "x")
      { query := none, question := none }).1 (by decide)).1,
   ((routeQueryFieldGate demoSteps demoSteps (fun _ => .error "x") (fun _ => .error "x")
      { query := some "top points", question := none }).2 "top points" rfl (by decide)).1⟩

/-- Pipeline steps whose first stage rejects, used to exercise the 500
path of the direct handler. -/
def failingSteps : RoutesSteps :=
  { demoSteps with getSchema := .error "schema API unreachable" }

/-- C8: when the pipeline invoked by the `POST /api/query` handler
throws, the handler responds 500 with a JSON body carrying the
`message` field "Error processing query" and the error text (the agent
variant substitutes "Unknown error" for an empty message). -/
theorem pipelineThrow500 (s : RoutesSteps) (ag : String → Except String QueryResult)
    (body : ReqBody) (q e : String) :
    body.query = some q → q ≠ "" →
    (routesPipeline s q = .error e →
      routesPostApiQuery s body = .errJson 500 "Error processing query" (some e))
    ∧ (ag q = .error e →
      agentPostApiQuery ag body =
        .errJson 500 "Error processing query" (some (jsOrStr (some e) "Unknown error"))) := by
  intro hq hne
  have ht : queryFieldTruthy body = true := by
    simp [queryFieldTruthy, jsTruthyStr, hq, hne]
  constructor
  · intro herr
    simp [routesPostApiQuery, ht, hq, herr]
  · intro herr
    simp [agentPostApiQuery, ht, hq, herr]

/-- C8 witness: with a failing schema fetch the direct handler answers
500 with the error text, on a concrete request. -/
theorem pipelineThrow500Witness :
    routesPostApiQuery failingSteps { query := some "top points", question := none } =
      .errJson 500 "Error processing query" (some "schema API unreachable") :=
  (pipelineThrow500 failingSteps (fun _ => .error "x")
    { query := some "top points", question := none } "top points" "schema API unreachable"
    rfl (by decide)).1 rfl

/-- C4: the agents never propagate an exception: the try body can only
reject when SQL generation rejects, that rejection is converted into
the "Error Processing Query" fallback result, and every other outcome is
returned as a well-formed `QueryResult`; SQL-tool, parsing and insights
failures are absorbed inside the body.  Holds for both
`LoyaltyAgent.processQuestion` variants. -/
theorem processQuestionTotalFallback (env : AgentEnv) (env2 : Agent2Env) (q : String) :
    (∀ e, processQuestionBody env q = .error e ↔ env.sqlChain q = .error e)
    ∧ (∀ e, env.sqlChain q = .error e →
        processQuestion env q = errorFallback (jsOrStr (some e) "Unknown error occurred"))
    ∧ (∀ r, processQuestionBody env q = .ok r → processQuestion env q = r)
    ∧ (∀ e, agent2ProcessQuestionBody env2 q = .error e ↔ agent2GenerateSQL env2 q = .error e)
    ∧ (∀ e, agent2GenerateSQL env2 q = .error e →
        agent2ProcessQuestion env2 q = errorFallback (jsOrStr (some e) "Unknown error occurred"))
    ∧ (∀ r, agent2ProcessQuestionBody env2 q = .ok r → agent2ProcessQuestion env2 q = r) := by
  refine ⟨?_, ?_, ?_, ?_, ?_, ?_⟩
  · intro e
    unfold processQuestionBody
    cases h : env.sqlChain q <;> simp [h, bind, Except.bind, pure, Except.pure]
  · intro e h
    unfold processQuestion processQuestionBody
    simp [h, bind, Except.bind]
  · intro r h
    unfold processQuestion
    rw [h]
  · intro e
    unfold agent2ProcessQuestionBody
    cases h : agent2GenerateSQL env2 q <;> simp [h, bind, Except.bind, pure, Except.pure]
  · intro e h
    unfold agent2ProcessQuestion agent2ProcessQuestionBody
    simp [h, bind, Except.bind]
  · intro r h
    unfold agent2ProcessQuestion
    rw [h]

/-- An agent environment whose SQL chain rejects, exercising the outer
catch on a concrete question. -/
def c4AgentEnv : AgentEnv :=
  { sqlChain := fun _ => .error "LLM unavailable",
    sqlToolRun := fun _ => .ok { error := none, data := some [], metadata := none },
    insightsChain := fun _ _ _ => .ok "",
    parseInsights := fun _ => none }

/-- A simplified-agent environment whose model call rejects. -/
def c4Agent2Env : Agent2Env :=
  { modelSql := fun _ => .error "LLM unavailable",
    apiExec := fun _ => .failure,
    modelInsights := fun _ _ _ => .error "x",
    parseJson := fun _ => none }

/-- C4 witness: with a rejecting SQL chain both agents return the
"Error Processing Query" fallback on a concrete question. -/
theorem processQuestionTotalFallbackWitness :
    processQuestion c4AgentEnv "top points" =
      errorFallback (jsOrStr (some "LLM unavailable") "Unknown error occurred")
    ∧ agent2ProcessQuestion c4Agent2Env "top points" =
      errorFallback (jsOrStr
        (some ("Failed to generate SQL: " ++ jsOrStr (some "LLM unavailable") "Unknown error"))
        "Unknown error occurred") :=
  ⟨(processQuestionTotalFallback c4AgentEnv c4Agent2Env "top points").2.1 "LLM unavailable" rfl,
   (processQuestionTotalFallback c4AgentEnv c4Agent2Env "top points").2.2.2.2.1
     ("Failed to generate SQL: " ++ jsOrStr (some "LLM unavailable") "Unknown error") rfl⟩

/-- An agent environment in which the SQL tool relays upstream metadata
whose reported count disagrees with the number of returned rows (the
upstream `{ results, count }` fields are passed through independently
by the API client). -/
def c7AgentEnv : AgentEnv :=
  { sqlChain := fun _ => .ok "SELECT * FROM customers",
    sqlToolRun := fun _ => .ok
      { error := none,
        data := some [[("id", JVal.jnum 1)]],
        metadata := some { count := 7, executionTime := 0 } },
    insightsChain := fun _ _ _ => .ok "analysis",
    parseInsights := fun _ =>
      some { title := some "Row Count", insights := some [], recommendations := some [] } }

/-- C7 counterexample: on the agent path, a successful response can
report `databaseResults.count` equal to the upstream metadata count (7)
while `data` holds a single row, so count does not equal the number of
rows in `data`. -/
theorem responseCountMetadataCounterexample :
    (processQuestion c7AgentEnv "how many customers").databaseResults.count ≠
      ((processQuestion c7AgentEnv "how many customers").data.length : Int)
    ∧ (processQuestion c7AgentEnv "how many customers").title ≠ "Error Processing Query" :=
  ⟨by decide, by decide⟩

/-- In every branch of the mock data tool, the metadata served with the
result (or its default) counts exactly the served rows. -/
theorem mockDataToolCountMatches (t : String) :
    ((mockDataToolFunc t).metadata.getD
        { count := ((mockDataToolFunc t).data.getD []).length, executionTime := 0 }).count =
      (((mockDataToolFunc t).data.getD []).length : Int) := by
  simp only [mockDataToolFunc, mockToolOk]
  split
  · simp
  · split
    · simp
    · split
      · simp
      · split
        · simp
        · simp

/-- C7 (amended): a successful response carries exactly the declared
fields with `databaseResults = { count, time }`; on the direct
`routes.ts` handler `count` always equals the number of rows in `data`,
while on the agent path `count` equals the tool metadata count when the
tool supplies one (which can differ from the row count, as the upstream
values are passed through), and equals the row count in every other
case (mock data, defaulted metadata, or the error fallback). -/
theorem responseCountCharacterization (s : RoutesSteps) (body : ReqBody)
    (env : AgentEnv) (q : String) :
    (∀ r, routesPostApiQuery s body = .okJson r →
      r.databaseResults.count = (r.data.length : Int))
    ∧ ((processQuestion env q).databaseResults.count =
        ((processQuestion env q).data.length : Int)
      ∨ ∃ sql tr m, env.sqlChain q = .ok sql ∧ env.sqlToolRun sql = .ok tr
          ∧ tr.metadata = some m
          ∧ (processQuestion env q).databaseResults.count = m.count
          ∧ (processQuestion env q).data = tr.data.getD []) := by
  constructor
  · intro r hr
    unfold routesPostApiQuery at hr
    by_cases ht : queryFieldTruthy body = true
    · rw [ht] at hr
      simp only [Bool.not_true, Bool.false_eq_true, if_false] at hr
      unfold routesPipeline at hr
      cases h1 : s.getSchema with
      | error e => rw [h1] at hr; simp [bind, Except.bind] at hr
      | ok d =>
        rw [h1] at hr
        simp only [bind, Except.bind] at hr
        cases h2 : s.genSQL (body.query.getD "") d with
        | error e => rw [h2] at hr; simp at hr
        | ok gen =>
          rw [h2] at hr
          simp only at hr
          cases h3 : s.execQuery gen.query with
          | error e => rw [h3] at hr; simp at hr
          | ok rows =>
            rw [h3] at hr
            simp only at hr
            cases h4 : s.analyze (body.query.getD "") rows gen.query with
            | error e => rw [h4] at hr; simp at hr
            | ok analysis =>
              rw [h4] at hr
              simp only [pure, Except.pure, RouteResponse.okJson.injEq] at hr
              subst hr
              rfl
    · simp only [Bool.not_eq_true] at ht
      rw [ht] at hr
      simp at hr
  · unfold processQuestion processQuestionBody
    cases hc : env.sqlChain q with
    | error e => simp [bind, Except.bind, errorFallback]
    | ok sql =>
      simp only [bind, Except.bind]
      cases htool : env.sqlToolRun sql with
      | error e =>
        simp only [pure, Except.pure]
        left
        simp [mockDataToolCountMatches]
      | ok tr =>
        simp only [pure, Except.pure]
        by_cases hcond :
            (jsTruthyStr tr.error || !tr.data.isSome || (tr.data.getD []).length == 0) = true
        · rw [hcond]
          left
          simp [mockDataToolCountMatches]
        · simp only [Bool.not_eq_true] at hcond
          rw [hcond]
          cases hm : tr.metadata with
          | none => left; simp [hm]
          | some m =>
            right
            refine ⟨sql, tr, m, ?_, ?_, ?_, ?_, ?_⟩ <;> simp [hc, htool, hm]

/-- The concrete response assembled by the direct handler under
`demoSteps` for a truthy request. -/
def demoRouteResult : QueryResult :=
  { queryUnderstanding := "demo",
    sqlQuery := "SELECT 1",
    databaseResults := { count := 0, time := 0 },
    title := "T",
    data := [],
    insights := [],
    recommendations := [] }

/-- C7 witness: on a concrete successful request through the direct
handler, the reported count equals the number of rows. -/
theorem responseCountCharacterizationWitness :
    demoRouteResult.databaseResults.count = (demoRouteResult.data.length : Int) :=
  (responseCountCharacterization demoSteps { query := some "top points", question := none }
    c7AgentEnv "q").1 demoRouteResult rfl

/-- The four sample files written by `createSampleSchemaFile`, in write
order. -/
def sampleSchemaFiles : List SchemaFile :=
  [ ("customers.yml", some sampleCustomersTable),
    ("points_transactions.yml", some samplePointsTransactionsTable),
    ("challenges.yml", some sampleChallengesTable),
    ("challenge_completions.yml", some sampleChallengeCompletionsTable) ]

/-- Helper: `find?` skips a leading block on which the predicate fails. -/
theorem find?_append_of_forall_false {α : Type} (p : α → Bool) (l₁ l₂ : List α)
    (h : ∀ a ∈ l₁, p a = false) : (l₁ ++ l₂).find? p = l₂.find? p := by
  induction l₁ with
  | nil => rfl
  | cons a as ih =>
    simp only [List.cons_append, List.find?]
    rw [h a (by simp)]
    exact ih (fun b hb => h b (by simp [hb]))

/-- Writing a fresh name appends the file at the end of the directory. -/
theorem writeSchemaFile_append (files : List SchemaFile) (name : String)
    (content : Option Table) (h : ∀ p ∈ files, (p.1 == name) = false) :
    writeSchemaFile files name content = files ++ [(name, content)] := by
  unfold writeSchemaFile
  rw [if_neg]
  intro hany
  rcases List.any_eq_true.mp hany with ⟨p, hp, hpe⟩
  rw [h p hp] at hpe
  exact Bool.false_ne_true hpe

/-- A directory with no `.yml`/`.yaml` entry has no entry named like a
YAML file. -/
theorem no_yaml_name_ne {fs : List SchemaFile}
    (h : ∀ p ∈ fs, isYamlName p.1 = false) {n : String} (hn : isYamlName n = true) :
    ∀ p ∈ fs, (p.1 == n) = false := by
  intro p hp
  cases hb : p.1 == n with
  | false => rfl
  | true =>
    have he : p.1 = n := eq_of_beq hb
    rw [← he] at hn
    rw [h p hp] at hn
    exact absurd hn Bool.false_ne_true

/-- On a directory without YAML entries, `createSampleSchemaFile`
appends the four sample files in order. -/
theorem createSampleSchemaFile_append (fs : List SchemaFile)
    (h : ∀ p ∈ fs, isYamlName p.1 = false) :
    createSampleSchemaFile fs = fs ++ sampleSchemaFiles := by
  unfold createSampleSchemaFile
  have h1 := writeSchemaFile_append fs "customers.yml" (some sampleCustomersTable)
    (no_yaml_name_ne h (by decide))
  rw [h1]
  have hmem1 : ∀ p ∈ fs ++ [("customers.yml", some sampleCustomersTable)],
      (p.1 == "points_transactions.yml") = false := by
    intro p hp
    rcases List.mem_append.mp hp with hp | hp
    · exact no_yaml_name_ne h (by decide) p hp
    · simp only [List.mem_singleton] at hp
      subst hp
      decide
  rw [writeSchemaFile_append _ _ _ hmem1]
  have hmem2 : ∀ p ∈ (fs ++ [("customers.yml", some sampleCustomersTable)]) ++
        [("points_transactions.yml", some samplePointsTransactionsTable)],
      (p.1 == "challenges.yml") = false := by
    intro p hp
    rcases List.mem_append.mp hp with hp | hp
    · rcases List.mem_append.mp hp with hp | hp
      · exact no_yaml_name_ne h (by decide) p hp
      · simp only [List.mem_singleton] at hp
        subst hp
        decide
    · simp only [List.mem_singleton] at hp
      subst hp
      decide
  rw [writeSchemaFile_append _ _ _ hmem2]
  have hmem3 : ∀ p ∈ ((fs ++ [("customers.yml", some sampleCustomersTable)]) ++
        [("points_transactions.yml", some samplePointsTransactionsTable)]) ++
        [("challenges.yml", some sampleChallengesTable)],
      (p.1 == "challenge_completions.yml") = false := by
    intro p hp
    rcases List.mem_append.mp hp with hp | hp
    · rcases List.mem_append.mp hp with hp | hp
      · rcases List.mem_append.mp hp with hp | hp
        · exact no_yaml_name_ne h (by decide) p hp
        · simp only [List.mem_singleton] at hp
          subst hp
          decide
      · simp only [List.mem_singleton] at hp
        subst hp
        decide
    · simp only [List.mem_singleton] at hp
      subst hp
      decide
  rw [writeSchemaFile_append _ _ _ hmem3]
  simp [sampleSchemaFiles]

/-- On a directory whose entries are all non-YAML, the loader creates
the samples and loads the first of them. -/
theorem loadDatabaseSchema_no_yaml (fs : List SchemaFile)
    (hfil : (fs.map Prod.fst).filter isYamlName = []) :
    loadDatabaseSchema (some fs) = ({ tables := [sampleCustomersTable] }, fs ++ sampleSchemaFiles) := by
  have hforall : ∀ p ∈ fs, isYamlName p.1 = false := by
    intro p hp
    have := List.filter_eq_nil_iff.mp hfil p.1 (List.mem_map_of_mem _ hp)
    simpa using this
  simp only [loadDatabaseSchema]
  rw [hfil]
  rw [createSampleSchemaFile_append fs hforall]
  simp only [List.map_append]
  rw [find?_append_of_forall_false isYamlName (fs.map Prod.fst) (sampleSchemaFiles.map Prod.fst)
    (by intro a ha
        rcases List.mem_map.mp ha with ⟨p, hp, hpe⟩
        rw [← hpe]
        exact hforall p hp)]
  rw [show (sampleSchemaFiles.map Prod.fst).find? isYamlName = some "customers.yml" from by decide]
  simp only [List.length_nil, beq_self_eq_true, if_true, List.filterMap_cons, List.filterMap_nil]
  rw [find?_append_of_forall_false (fun p => p.1 == "customers.yml") fs sampleSchemaFiles
    (no_yaml_name_ne hforall (by decide))]
  rw [show sampleSchemaFiles.find? (fun p => p.1 == "customers.yml") =
      some ("customers.yml", some sampleCustomersTable) from by decide]
  simp [sampleCustomersTable]

/-- C5: whenever the schema directory does not exist or holds no
`.yml`/`.yaml` file, `loadDatabaseSchema` creates the sample schema
files and returns a schema whose table list is non-empty. -/
theorem loadSchemaAutoCreates (dir : Option (List SchemaFile)) :
    (dir = none ∨ ∃ fs, dir = some fs ∧ (fs.map Prod.fst).filter isYamlName = []) →
    (loadDatabaseSchema dir).1.tables ≠ []
    ∧ ∀ f ∈ sampleSchemaFiles, f ∈ (loadDatabaseSchema dir).2 := by
  intro h
  rcases h with h | ⟨fs, hdir, hfil⟩
  · subst h
    refine ⟨by decide, ?_⟩
    intro f hf
    fin_cases hf <;> decide
  · subst hdir
    rw [loadDatabaseSchema_no_yaml fs hfil]
    refine ⟨by simp, ?_⟩
    intro f hf
    exact List.mem_append_right fs hf

/-- C5 witness: with no schema directory at all, the loader returns a
non-empty table list and has created the sample files. -/
theorem loadSchemaAutoCreatesWitness :
    (loadDatabaseSchema none).1.tables ≠ [] :=
  (loadSchemaAutoCreates none (Or.inl rfl)).1
